import Mathlib

/-
Verification of the session / transaction orchestration layer of the
neo4j Python driver fork, file `neo4j/work/simple.py`.

The shallow embedding below translates the session state machine of
`Session` (fields `_connection`, `_transaction`, `_autoResult`,
`_bookmarks`, `_state`) and its public operations `run`,
`begin_transaction`, `commit_transaction`, `rollback_transaction`,
`next_bookmarks`, `close`, together with the managed retry engine
`_run_transaction`, the backoff generator `retry_delay_generator` and
the classifier `is_retriable_transient_error`.

External collaborators (the `Result` and `Transaction` classes, the
connection pool) are not part of the translated file; their outcomes are
supplied through explicit oracle records, and the effect their
completion callbacks have on the session is modelled from the design
document (each such definition carries a doc comment starting with
"Modelled from the spec").
-/

namespace Neo4j

/-- Opaque causal-consistency token issued by the server. In the source
these are plain strings taken from summary metadata; the empty string is
falsy in Python and therefore counts as no bookmark. -/
abbrev Bookmark := String

/-- The error values the translated code can raise. Constructors mirror
the exception classes imported by `simple.py` (`ValueError`,
`TransactionError`, `ServiceUnavailable`, `SessionExpired`,
`TransientError`, generic `Neo4jError`), plus `unstructuredRaise` for
the bare string value raised by `Session.run` when an explicit
transaction is open (`raise "hell"`). -/
inductive DriverError where
  | valueError (msg : String)
  | transactionError (msg : String)
  | serviceUnavailable (msg : String)
  | sessionExpired (msg : String)
  | transientError (code : String)
  | neo4jError (msg : String)
  | unstructuredRaise (payload : String)
  deriving DecidableEq

/-- Usage errors in the sense of section 7 of the design document:
caller violated an invariant, surfaced synchronously, never retried. -/
def DriverError.isUsageError : DriverError → Bool
  | .valueError _ => true
  | .transactionError _ => true
  | _ => false

/-- State of the `Transaction` collaborator kept on the session
(`_transaction`): its closed flag (`_closed`) and its post-completion
bookmark (`_bookmark`). -/
structure TxHandle where
  closed : Bool
  bookmark : Option Bookmark
  deriving DecidableEq

/-- State of the auto-commit `Result` collaborator kept on the session
(`_autoResult`): its post-completion bookmark (`_bookmark`). -/
structure ResHandle where
  bookmark : Option Bookmark
  deriving DecidableEq

/-- The `_state` field of a session: `None`, `"graceful_close_state"` or
`"error_state"` in the source. -/
inductive SessionLifecycle where
  | unset
  | gracefulClose
  | errorState
  deriving DecidableEq

/-- The mutable fields of a `Session` object: `_connection` (whether a
connection lease is currently held), `_transaction`, `_autoResult`,
`_bookmarks` and `_state`. -/
structure SessionState where
  connection : Bool
  transaction : Option TxHandle
  autoResult : Option ResHandle
  bookmarks : List Bookmark
  state : SessionLifecycle
  deriving DecidableEq

/-- A session as built by `Session.__init__`: no lease, no handles, the
bookmark store seeded from the configuration. -/
def initialSession (configBookmarks : List Bookmark) : SessionState :=
  { connection := false, transaction := none, autoResult := none,
    bookmarks := configBookmarks, state := .unset }

/-- The effect of `Session._collect_bookmark` on the bookmark store:
`if bookmark: self._bookmarks = [bookmark]` — wholesale replacement by a
one-element list for a truthy bookmark, no change for `None` or the
empty string. -/
def collectList (bms : List Bookmark) (b : Option Bookmark) : List Bookmark :=
  match b with
  | some bk => if bk = "" then bms else [bk]
  | none => bms

namespace Session

/-- Translation of `Session._collect_bookmark`. -/
def _collect_bookmark (s : SessionState) (b : Option Bookmark) : SessionState :=
  { s with bookmarks := collectList s.bookmarks b }

/-- Translation of `Session._disconnect`: clear the in-use flag and drop
the lease. -/
def _disconnect (s : SessionState) : SessionState :=
  if s.connection then { s with connection := false } else s

/-- Translation of `Session._result_closed`, the completion callback the
session hands to the `Result` collaborator: collect the bookmark of the
outstanding auto-commit result, clear `_autoResult`, release the lease. -/
def _result_closed (s : SessionState) : SessionState :=
  match s.autoResult with
  | some r => _disconnect { _collect_bookmark s r.bookmark with autoResult := none }
  | none => s

/-- Translation of `Session._transaction_closed`, the completion
callback handed to the `Transaction` collaborator: collect the bookmark
of the current transaction, clear `_transaction`, release the lease. -/
def _transaction_closed (s : SessionState) : SessionState :=
  match s.transaction with
  | some t => _disconnect { _collect_bookmark s t.bookmark with transaction := none }
  | none => s

/-- Modelled from the spec: `Result._detach` is code of this repository
that is not under `src/`. Per sections 2, 4.1 and 6 of the design
document, detaching fully drains the result into a buffer, captures its
bookmark into the session and frees the connection, ending the session
ownership of the handle; on the session this is exactly the completion
callback `_result_closed` (which also explains why the assignments after
`_detach()` in `Session.run` are commented out in the source). -/
def detachAutoResult (s : SessionState) : SessionState :=
  _result_closed s

/-- Outcomes of the external calls made by `Session._connect`: the
flush (`send_all` and `fetch_all`) of a still-held connection, and the
pool `acquire` call. `none` means the call succeeded. -/
structure ConnectOracle where
  flush : Option DriverError
  acquire : Option DriverError
  deriving DecidableEq

/-- Translation of `Session._connect`. If a connection is already held,
the source flushes it (a failure there propagates with the lease still
held) and disconnects before acquiring; an `acquire` failure propagates
with no lease held. -/
def _connect (s : SessionState) (o : ConnectOracle) :
    SessionState × Option DriverError :=
  if s.connection then
    match o.flush with
    | some e => (s, some e)
    | none =>
      let s1 := _disconnect s
      match o.acquire with
      | some e => (s1, some e)
      | none => ({ s1 with connection := true }, none)
  else
    match o.acquire with
    | some e => (s, some e)
    | none => ({ s with connection := true }, none)

/-- Outcomes of the external calls made by `Session.run`: connection
acquisition and the `Result._run` call on the fresh handle. -/
structure RunOracle where
  connect : ConnectOracle
  runFail : Option DriverError
  deriving DecidableEq

/-- Translation of `Session.run`. Order of checks as in the source:
empty query, then the bare-string raise while an explicit transaction is
open, then detach of an outstanding auto-commit result, then connect if
no lease is held, then the new `Result` handle is stored and its `_run`
is issued (a failure there propagates with the handle already stored). -/
def run (s : SessionState) (query : String) (o : RunOracle) :
    SessionState × Except DriverError ResHandle :=
  if query = "" then
    (s, .error (.valueError "Cannot run an empty query"))
  else if s.transaction.isSome then
    (s, .error (.unstructuredRaise "hell"))
  else
    let s1 := if s.autoResult.isSome then detachAutoResult s else s
    let step := if s1.connection then (s1, (none : Option DriverError))
                else _connect s1 o.connect
    match step.2 with
    | some e => (step.1, .error e)
    | none =>
      let r : ResHandle := { bookmark := none }
      let s2 := { step.1 with autoResult := some r }
      match o.runFail with
      | some e => (s2, .error e)
      | none => (s2, .ok r)

/-- Outcomes of the external calls made by `Session._open_transaction`:
connection acquisition and the `Transaction._begin` call. -/
structure BeginOracle where
  connect : ConnectOracle
  beginFail : Option DriverError
  deriving DecidableEq

/-- Translation of `Session._open_transaction`: connect, store a fresh
open `Transaction` handle, issue `_begin` (a failure there propagates
with the handle already stored). -/
def _open_transaction (s : SessionState) (o : BeginOracle) :
    SessionState × Except DriverError TxHandle :=
  let step := _connect s o.connect
  match step.2 with
  | some e => (step.1, .error e)
  | none =>
    let t : TxHandle := { closed := false, bookmark := none }
    let s1 := { step.1 with transaction := some t }
    match o.beginFail with
    | some e => (s1, .error e)
    | none => (s1, .ok t)

/-- Translation of `Session.begin_transaction`: detach an outstanding
auto-commit result first, fail with `TransactionError` if a transaction
is already open, otherwise open one. -/
def begin_transaction (s : SessionState) (o : BeginOracle) :
    SessionState × Except DriverError TxHandle :=
  let s1 := if s.autoResult.isSome then detachAutoResult s else s
  if s1.transaction.isSome then
    (s1, .error (.transactionError "Explicit transaction already open"))
  else
    _open_transaction s1 o

/-- Outcome of the delegated `Transaction.commit` call: on success the
server bookmark it returns (modelled from the spec: the collaborator
also stores that bookmark on the handle, section 3 and 6 of the design
document), on failure the raised error. -/
structure CommitOracle where
  commit : Except DriverError (Option Bookmark)

/-- Translation of `Session.commit_transaction`: `TransactionError` if
no transaction is open; otherwise delegate to `commit` and, in a
`finally` block, run `_transaction_closed` regardless of the outcome. -/
def commit_transaction (s : SessionState) (o : CommitOracle) :
    SessionState × Except DriverError (Option Bookmark) :=
  match s.transaction with
  | none => (s, .error (.transactionError "No transaction to commit"))
  | some t =>
    match o.commit with
    | .ok b =>
      let s1 := { s with transaction := some { t with closed := true, bookmark := b } }
      (_transaction_closed s1, .ok b)
    | .error e => (_transaction_closed s, .error e)

/-- Outcome of the delegated `Transaction.rollback` call; on success the
bookmark the collaborator stores on the handle (modelled from the spec:
the handle holds a bookmark value after rollback). -/
structure RollbackOracle where
  rollback : Except DriverError (Option Bookmark)

/-- Translation of `Session.rollback_transaction`: `TransactionError` if
no transaction is open; otherwise delegate to `rollback` and, in a
`finally` block, run `_transaction_closed` regardless of the outcome. -/
def rollback_transaction (s : SessionState) (o : RollbackOracle) :
    SessionState × Except DriverError Unit :=
  match s.transaction with
  | none => (s, .error (.transactionError "No transaction to rollback"))
  | some t =>
    match o.rollback with
    | .ok b =>
      let s1 := { s with transaction := some { t with closed := true, bookmark := b } }
      (_transaction_closed s1, .ok ())
    | .error e => (_transaction_closed s, .error e)

/-- Translation of `Session.next_bookmarks`: detach an outstanding
auto-commit result; if the current transaction has already reached its
closed state, collect its bookmark and clear it (without releasing the
lease); return the bookmark store. -/
def next_bookmarks (s : SessionState) : SessionState × List Bookmark :=
  let s1 := if s.autoResult.isSome then detachAutoResult s else s
  let s2 :=
    match s1.transaction with
    | some t =>
      if t.closed then { _collect_bookmark s1 t.bookmark with transaction := none }
      else s1
    | none => s1
  (s2, s2.bookmarks)

/-- Outcomes of the external calls made by `Session.close`: consuming
the outstanding auto-commit result, and the final flush. The flush
outcome never influences the resulting state because the source swallows
every error class it can raise there. -/
structure CloseOracle where
  consume : Option DriverError
  flush : Option DriverError
  deriving DecidableEq

/-- Translation of `Session.close`. No-op when no connection is held.
Otherwise: if an auto-commit result is outstanding and the session is
not in the error state, consume it and collect its bookmark (modelled
from the spec: consumption completes the result, which ends the session
ownership of the handle via the completion callback `_result_closed`);
a failure of that step clears the handle and marks the error state but
does not abort the close. An outstanding transaction is rolled back on
the raw connection and cleared. The final flush swallows all protocol
errors, the lease is released, and `_state` is reset. -/
def close (s : SessionState) (o : CloseOracle) : SessionState :=
  if s.connection then
    let s1 :=
      match s.autoResult with
      | some _ =>
        if s.state = SessionLifecycle.errorState then s
        else
          match o.consume with
          | none => _result_closed s
          | some _ => { s with autoResult := none, state := .errorState }
      | none => s
    let s2 := if s1.transaction.isSome then { s1 with transaction := none } else s1
    { _disconnect s2 with state := .unset }
  else s

end Session

/-- Argument of the module-level function `is_retriable_transient_error`,
a `TransientError` instance with its server-assigned `code` string. -/
structure TransientErr where
  code : String
  deriving DecidableEq

/-- Translation of `is_retriable_transient_error`: every transient error
is retriable except the two codes for a terminated transaction and a
stopped lock client. -/
def is_retriable_transient_error (error : TransientErr) : Bool :=
  !(error.code = "Neo.TransientError.Transaction.Terminated"
    || error.code = "Neo.TransientError.Transaction.LockClientStopped")

/-- Which raised errors the retry loop of `Session._run_transaction`
catches and records: `except (ServiceUnavailable, SessionExpired)`
records unconditionally, `except TransientError` records exactly the
retriable codes and re-raises the rest; every other error propagates. -/
def recordedByEngine : DriverError → Bool
  | .serviceUnavailable _ => true
  | .sessionExpired _ => true
  | .transientError c => is_retriable_transient_error { code := c }
  | _ => false

/-- What the loop raises once the time budget is exceeded:
`raise errors[-1]` when at least one error was recorded, otherwise
`raise ServiceUnavailable("Transaction failed")`. -/
def finalError (errors : List DriverError) : DriverError :=
  match errors.getLast? with
  | some e => e
  | none => .serviceUnavailable "Transaction failed"

/-- Outcomes of the external calls of one iteration of the retry loop:
the `_open_transaction` call, the unit of work, the `commit` call, and
the value of `perf_counter() - t0` at the budget check that follows a
failed iteration. The unit-of-work and commit outcomes are only
meaningful when the earlier steps succeeded. -/
structure AttemptOracle (α : Type) where
  openTx : Option DriverError
  uow : Except DriverError α
  commit : Option DriverError
  elapsedAfter : ℚ

/-- Counters and recorded errors accumulated across iterations of the
retry loop: the recorded error list, how often the unit of work was
invoked, how often the loop slept between attempts, how often
`tx.rollback()` ran on a unit-of-work exception, and how often
`tx._close()` ran in the `finally` block. -/
structure RetryAcc where
  errors : List DriverError
  uowCalls : ℕ
  sleeps : ℕ
  rollbacks : ℕ
  closes : ℕ
  deriving DecidableEq

/-- Result of a modelled run of the retry loop. `outOfFuel` marks runs
whose oracle list ended before the loop did; no theorem below relies on
that constructor. -/
inductive RunResult (α : Type) where
  | ok (v : α)
  | err (e : DriverError)
  | outOfFuel
  deriving DecidableEq

/-- Final result and accumulated counters of a modelled retry-loop run. -/
structure RunOutcome (α : Type) where
  result : RunResult α
  final : RetryAcc
  deriving DecidableEq

/-- The body of one iteration of the `while True` loop in
`Session._run_transaction` up to the exception handlers: open the
transaction, invoke the unit of work (on an exception roll back, close,
re-raise), otherwise commit and close. The returned error, if any, is
the exception that reaches the outer `except` clauses. -/
def attemptStep {α : Type} (a : AttemptOracle α) (acc : RetryAcc) :
    RetryAcc × Except DriverError α :=
  match a.openTx with
  | some e => (acc, .error e)
  | none =>
    match a.uow with
    | .error e =>
      ({ acc with uowCalls := acc.uowCalls + 1, rollbacks := acc.rollbacks + 1,
                  closes := acc.closes + 1 }, .error e)
    | .ok v =>
      match a.commit with
      | some e =>
        ({ acc with uowCalls := acc.uowCalls + 1, closes := acc.closes + 1 }, .error e)
      | none =>
        ({ acc with uowCalls := acc.uowCalls + 1, closes := acc.closes + 1 }, .ok v)

/-- Translation of the retry loop of `Session._run_transaction`. On a
successful iteration the result is returned. An error caught by the
outer handlers (connectivity, or retriable transient) is appended to
`errors`; then `if t1 - t0 > max_transaction_retry_time: break` raises
`finalError`, otherwise the loop sleeps and iterates. Any other error
propagates at once. The oracle list doubles as fuel. -/
def runTxLoop {α : Type} (budget : ℚ) :
    List (AttemptOracle α) → RetryAcc → RunOutcome α
  | [], acc => { result := .outOfFuel, final := acc }
  | a :: rest, acc =>
    let step := attemptStep a acc
    match step.2 with
    | .ok v => { result := .ok v, final := step.1 }
    | .error e =>
      if recordedByEngine e then
        let acc2 := { step.1 with errors := step.1.errors ++ [e] }
        if a.elapsedAfter > budget then
          { result := .err (finalError acc2.errors), final := acc2 }
        else
          runTxLoop budget rest { acc2 with sleeps := acc2.sleeps + 1 }
      else
        { result := .err e, final := step.1 }

/-- Fresh accumulator at loop entry (`errors = []`, `t0` taken). -/
def initAcc : RetryAcc :=
  { errors := [], uowCalls := 0, sleeps := 0, rollbacks := 0, closes := 0 }

/-- Translation of `Session._run_transaction` as seen through the
attempt oracles: the loop entered with a fresh accumulator and the
configured `max_transaction_retry_time` budget. -/
def run_transaction {α : Type} (budget : ℚ)
    (attempts : List (AttemptOracle α)) : RunOutcome α :=
  runTxLoop budget attempts initAcc

/-- The value of the local variable `delay` in `retry_delay_generator`
at the start of step k: `delay = initial_delay` initially, then
`delay *= multiplier` once per step. -/
def retryDelay (initial_delay multiplier : ℚ) : ℕ → ℚ
  | 0 => initial_delay
  | k + 1 => retryDelay initial_delay multiplier k * multiplier

/-- Translation of the generator body of `retry_delay_generator`: the
value yielded at step k, namely `delay - jitter + 2 * jitter * random()`
with `jitter = jitter_factor * delay`, where `draw k` stands for the
`random()` value of step k. The generator loop is `while True`, so the
model is a total function of k: a value exists for every step. -/
def retry_delay_generator (initial_delay multiplier jitter_factor : ℚ)
    (draw : ℕ → ℚ) (k : ℕ) : ℚ :=
  let delay := retryDelay initial_delay multiplier k
  let jitter := jitter_factor * delay
  delay - jitter + 2 * jitter * draw k

/-- Closed form of the delay recurrence. -/
theorem retryDelay_eq_pow (d0 m : ℚ) (k : ℕ) :
    retryDelay d0 m k = d0 * m ^ k := by
  induction k with
  | zero => simp [retryDelay]
  | succ n ih => rw [retryDelay, ih, pow_succ, mul_assoc]

/-- The session invariant of the design document: at most one of the
auto-commit result handle and the transaction handle is non-null, and
the connection lease is held whenever either handle is non-null. -/
def SessionInv (s : SessionState) : Prop :=
  (s.autoResult = none ∨ s.transaction = none) ∧
  ((s.autoResult.isSome ∨ s.transaction.isSome) → s.connection = true)

/-- Auxiliary strengthening used for the induction: the `_state` field
is never left equal to the error state by any public operation (`close`
resets it before returning, and it is the only operation writing it). -/
def StrongSessionInv (s : SessionState) : Prop :=
  SessionInv s ∧ s.state ≠ SessionLifecycle.errorState

/-- External completion of the outstanding auto-commit result: the
server reports the end of the stream together with a bookmark, which the
collaborator stores on the handle before firing the completion
callback. -/
def setResultBookmark (s : SessionState) (b : Option Bookmark) : SessionState :=
  { s with autoResult := s.autoResult.map (fun r => { r with bookmark := b }) }

/-- External update of the current transaction handle by its
collaborator (for example a commit or rollback issued directly on the
handle): the closed flag and the stored bookmark change. -/
def setTxHandle (s : SessionState) (c : Bool) (b : Option Bookmark) : SessionState :=
  { s with transaction := s.transaction.map (fun t => { t with closed := c, bookmark := b }) }

/-- Session states reachable from a fresh session through the public
operations (with arbitrary external-call outcomes) and through the
collaborator-driven completion callbacks. -/
inductive Reachable : SessionState → Prop where
  | init (bms : List Bookmark) : Reachable (initialSession bms)
  | run (s : SessionState) (q : String) (o : Session.RunOracle) :
      Reachable s → Reachable (Session.run s q o).1
  | beginTx (s : SessionState) (o : Session.BeginOracle) :
      Reachable s → Reachable (Session.begin_transaction s o).1
  | commitTx (s : SessionState) (o : Session.CommitOracle) :
      Reachable s → Reachable (Session.commit_transaction s o).1
  | rollbackTx (s : SessionState) (o : Session.RollbackOracle) :
      Reachable s → Reachable (Session.rollback_transaction s o).1
  | nextBookmarks (s : SessionState) :
      Reachable s → Reachable (Session.next_bookmarks s).1
  | close (s : SessionState) (o : Session.CloseOracle) :
      Reachable s → Reachable (Session.close s o)
  | resultCompleted (s : SessionState) (b : Option Bookmark) :
      Reachable s → Reachable (Session._result_closed (setResultBookmark s b))
  | txUpdated (s : SessionState) (c : Bool) (b : Option Bookmark) :
      Reachable s → Reachable (setTxHandle s c b)
  | txCompleted (s : SessionState) (c : Bool) (b : Option Bookmark) :
      Reachable s → Reachable (Session._transaction_closed (setTxHandle s c b))

/-- Preservation of the strengthened invariant by `Session.run`. -/
theorem strongInv_run (s : SessionState) (q : String) (o : Session.RunOracle)
    (h : StrongSessionInv s) : StrongSessionInv (Session.run s q o).1 := by
  obtain ⟨conn, tx, auto, bms, st⟩ := s
  obtain ⟨⟨cf, ca⟩, rf⟩ := o
  obtain ⟨⟨h1, h2⟩, h3⟩ := h
  by_cases hq : q = "" <;>
    cases conn <;> cases tx <;> cases auto <;> cases cf <;> cases ca <;> cases rf <;>
      simp_all [Session.run, Session.detachAutoResult, Session._result_closed,
        Session._collect_bookmark, Session._disconnect, Session._connect,
        StrongSessionInv, SessionInv]

/-- Preservation of the strengthened invariant by
`Session.begin_transaction`. -/
theorem strongInv_begin (s : SessionState) (o : Session.BeginOracle)
    (h : StrongSessionInv s) : StrongSessionInv (Session.begin_transaction s o).1 := by
  obtain ⟨conn, tx, auto, bms, st⟩ := s
  obtain ⟨⟨cf, ca⟩, bf⟩ := o
  obtain ⟨⟨h1, h2⟩, h3⟩ := h
  cases conn <;> cases tx <;> cases auto <;> cases cf <;> cases ca <;> cases bf <;>
    simp_all [Session.begin_transaction, Session._open_transaction,
      Session.detachAutoResult, Session._result_closed, Session._collect_bookmark,
      Session._disconnect, Session._connect, StrongSessionInv, SessionInv]

/-- Preservation of the strengthened invariant by
`Session.commit_transaction`. -/
theorem strongInv_commit (s : SessionState) (o : Session.CommitOracle)
    (h : StrongSessionInv s) : StrongSessionInv (Session.commit_transaction s o).1 := by
  obtain ⟨conn, tx, auto, bms, st⟩ := s
  obtain ⟨oc⟩ := o
  obtain ⟨⟨h1, h2⟩, h3⟩ := h
  cases conn <;> cases tx <;> cases auto <;> cases oc <;>
    simp_all [Session.commit_transaction, Session._transaction_closed,
      Session._collect_bookmark, Session._disconnect, StrongSessionInv, SessionInv]

/-- Preservation of the strengthened invariant by
`Session.rollback_transaction`. -/
theorem strongInv_rollback (s : SessionState) (o : Session.RollbackOracle)
    (h : StrongSessionInv s) : StrongSessionInv (Session.rollback_transaction s o).1 := by
  obtain ⟨conn, tx, auto, bms, st⟩ := s
  obtain ⟨oc⟩ := o
  obtain ⟨⟨h1, h2⟩, h3⟩ := h
  cases conn <;> cases tx <;> cases auto <;> cases oc <;>
    simp_all [Session.rollback_transaction, Session._transaction_closed,
      Session._collect_bookmark, Session._disconnect, StrongSessionInv, SessionInv]

/-- Preservation of the strengthened invariant by
`Session.next_bookmarks`. -/
theorem strongInv_next_bookmarks (s : SessionState)
    (h : StrongSessionInv s) : StrongSessionInv (Session.next_bookmarks s).1 := by
  obtain ⟨conn, tx, auto, bms, st⟩ := s
  obtain ⟨⟨h1, h2⟩, h3⟩ := h
  cases conn <;> cases tx <;> cases auto <;>
    simp_all [Session.next_bookmarks, Session.detachAutoResult,
      Session._result_closed, Session._collect_bookmark, Session._disconnect,
      StrongSessionInv, SessionInv]
  split <;> simp_all

/-- Preservation of the strengthened invariant by `Session.close`. -/
theorem strongInv_close (s : SessionState) (o : Session.CloseOracle)
    (h : StrongSessionInv s) : StrongSessionInv (Session.close s o) := by
  obtain ⟨conn, tx, auto, bms, st⟩ := s
  obtain ⟨oc, fl⟩ := o
  obtain ⟨⟨h1, h2⟩, h3⟩ := h
  cases conn <;> cases tx <;> cases auto <;> cases oc <;> cases st <;>
    simp_all [Session.close, Session._result_closed, Session._collect_bookmark,
      Session._disconnect, StrongSessionInv, SessionInv]

/-- Preservation of the strengthened invariant by an externally driven
result completion. -/
theorem strongInv_resultCompleted (s : SessionState) (b : Option Bookmark)
    (h : StrongSessionInv s) :
    StrongSessionInv (Session._result_closed (setResultBookmark s b)) := by
  obtain ⟨conn, tx, auto, bms, st⟩ := s
  obtain ⟨⟨h1, h2⟩, h3⟩ := h
  cases conn <;> cases tx <;> cases auto <;>
    simp_all [setResultBookmark, Session._result_closed,
      Session._collect_bookmark, Session._disconnect, StrongSessionInv, SessionInv]

/-- Preservation of the strengthened invariant by an external update of
the transaction handle. -/
theorem strongInv_txUpdated (s : SessionState) (c : Bool) (b : Option Bookmark)
    (h : StrongSessionInv s) : StrongSessionInv (setTxHandle s c b) := by
  obtain ⟨conn, tx, auto, bms, st⟩ := s
  obtain ⟨⟨h1, h2⟩, h3⟩ := h
  cases conn <;> cases tx <;> cases auto <;>
    simp_all [setTxHandle, StrongSessionInv, SessionInv]

/-- Preservation of the strengthened invariant by an externally driven
transaction completion. -/
theorem strongInv_txCompleted (s : SessionState) (c : Bool) (b : Option Bookmark)
    (h : StrongSessionInv s) :
    StrongSessionInv (Session._transaction_closed (setTxHandle s c b)) := by
  obtain ⟨conn, tx, auto, bms, st⟩ := s
  obtain ⟨⟨h1, h2⟩, h3⟩ := h
  cases conn <;> cases tx <;> cases auto <;>
    simp_all [setTxHandle, Session._transaction_closed,
      Session._collect_bookmark, Session._disconnect, StrongSessionInv, SessionInv]

/-- Every reachable session state satisfies the strengthened invariant. -/
theorem strongInv_reachable (s : SessionState) (h : Reachable s) :
    StrongSessionInv s := by
  induction h with
  | init bms =>
    refine ⟨⟨Or.inl rfl, ?_⟩, ?_⟩ <;> simp [initialSession]
  | run s q o _ ih => exact strongInv_run s q o ih
  | beginTx s o _ ih => exact strongInv_begin s o ih
  | commitTx s o _ ih => exact strongInv_commit s o ih
  | rollbackTx s o _ ih => exact strongInv_rollback s o ih
  | nextBookmarks s _ ih => exact strongInv_next_bookmarks s ih
  | close s o _ ih => exact strongInv_close s o ih
  | resultCompleted s b _ ih => exact strongInv_resultCompleted s b ih
  | txUpdated s c b _ ih => exact strongInv_txUpdated s c b ih
  | txCompleted s c b _ ih => exact strongInv_txCompleted s c b ih

/-- C1: for every session and after every public operation (`run`,
`begin_transaction`, `commit_transaction`, `rollback_transaction`,
`next_bookmarks`, `close`), at most one of the auto-commit result handle
and the transaction handle of the session is non-null, and the
connection lease is non-null whenever either of those handles is
non-null. Formally: every state reachable from a fresh session through
the public operations, with arbitrary external-call outcomes, satisfies
the session invariant. -/
theorem session_invariant_reachable (s : SessionState) (h : Reachable s) :
    SessionInv s :=
  (strongInv_reachable s h).1

/-- Witness for C1 on a concrete trace: a fresh session followed by a
successful auto-commit `run`. -/
theorem session_invariant_reachable_witness :
    SessionInv (Session.run (initialSession []) "RETURN 1"
      { connect := { flush := none, acquire := none }, runFail := none }).1 :=
  session_invariant_reachable _ (Reachable.run _ _ _ (Reachable.init []))

/-- C2: with an explicit transaction open, `Session.run` on a non-empty
query does fail synchronously, but the value raised on that path is the
bare string `"hell"` (an unstructured raise, not an exception type), so
the failure is not of the usage-error kind the claim requires. The
theorem evaluates the translated code at the failing input. -/
theorem run_with_open_transaction_raises_bare_string :
    Session.run
      { connection := true, transaction := some { closed := false, bookmark := none },
        autoResult := none, bookmarks := [], state := .unset }
      "RETURN 1" { connect := { flush := none, acquire := none }, runFail := none }
      = ({ connection := true, transaction := some { closed := false, bookmark := none },
           autoResult := none, bookmarks := [], state := .unset },
         .error (.unstructuredRaise "hell"))
    ∧ DriverError.isUsageError (.unstructuredRaise "hell") = false := by
  exact ⟨rfl, rfl⟩

/-- C6: `commit_transaction` raises `TransactionError` and leaves the
session unchanged when no transaction is open; with an open transaction
it finalizes on either outcome of the delegated commit, collecting the
bookmark of the transaction into the bookmark store, clearing the
transaction handle and releasing the connection lease;
`rollback_transaction` gives the same guarantee. -/
theorem commit_rollback_finalize (s : SessionState) (oc : Session.CommitOracle)
    (orb : Session.RollbackOracle) :
    (Session.commit_transaction s oc =
      match s.transaction with
      | none => (s, Except.error (DriverError.transactionError "No transaction to commit"))
      | some t =>
        ({ connection := false, transaction := none, autoResult := s.autoResult,
           bookmarks := collectList s.bookmarks
             (match oc.commit with | .ok b => b | .error _ => t.bookmark),
           state := s.state }, oc.commit)) ∧
    (Session.rollback_transaction s orb =
      match s.transaction with
      | none => (s, Except.error (DriverError.transactionError "No transaction to rollback"))
      | some t =>
        ({ connection := false, transaction := none, autoResult := s.autoResult,
           bookmarks := collectList s.bookmarks
             (match orb.rollback with | .ok b => b | .error _ => t.bookmark),
           state := s.state },
         match orb.rollback with
         | .ok _ => Except.ok ()
         | .error e => Except.error e)) := by
  obtain ⟨conn, tx, auto, bms, st⟩ := s
  obtain ⟨occ⟩ := oc
  obtain ⟨orr⟩ := orb
  cases tx <;> cases occ <;> cases orr <;> cases conn <;>
    simp_all [Session.commit_transaction, Session.rollback_transaction,
      Session._transaction_closed, Session._collect_bookmark, Session._disconnect]

/-- C7: collecting a reported bookmark replaces the bookmark store
wholesale by the one-element sequence holding that bookmark when it is
non-empty, and leaves the store (and the whole session) unchanged when
the reported bookmark is empty or `None`. -/
theorem collect_bookmark_wholesale (s : SessionState) (bk : Bookmark) :
    (bk ≠ "" → (Session._collect_bookmark s (some bk)).bookmarks = [bk]) ∧
    Session._collect_bookmark s (some "") = s ∧
    Session._collect_bookmark s none = s := by
  refine ⟨fun h => ?_, ?_, ?_⟩ <;>
    simp_all [Session._collect_bookmark, collectList]

/-- Witness for C7: collecting the non-empty bookmark "B1" over an
arbitrary previous store yields exactly ["B1"]. -/
theorem collect_bookmark_wholesale_witness :
    (Session._collect_bookmark (initialSession ["old1", "old2"]) (some "B1")).bookmarks
      = ["B1"] :=
  (collect_bookmark_wholesale (initialSession ["old1", "old2"]) "B1").1 (by decide)

/-- C9: calling `begin_transaction` while a transaction is already open
raises the usage error `TransactionError` and returns the session state
unchanged (connection lease, result handle, transaction handle and
bookmark store untouched). The session invariant rules out an
outstanding auto-commit result next to the open transaction, so the
leading detach step is a no-op. -/
theorem begin_transaction_open_tx_usage_error (s : SessionState) (t : TxHandle)
    (o : Session.BeginOracle) (hinv : SessionInv s) (ht : s.transaction = some t) :
    Session.begin_transaction s o
      = (s, .error (.transactionError "Explicit transaction already open")) := by
  have hauto : s.autoResult = none := by
    rcases hinv.1 with h | h
    · exact h
    · rw [ht] at h
      cases h
  simp [Session.begin_transaction, hauto, ht]

/-- Witness for C9 at a concrete session with an open transaction. -/
theorem begin_transaction_open_tx_usage_error_witness :
    Session.begin_transaction
      { connection := true, transaction := some { closed := false, bookmark := none },
        autoResult := none, bookmarks := ["b0"], state := .unset }
      { connect := { flush := none, acquire := none }, beginFail := none }
      = ({ connection := true, transaction := some { closed := false, bookmark := none },
           autoResult := none, bookmarks := ["b0"], state := .unset },
         .error (.transactionError "Explicit transaction already open")) :=
  begin_transaction_open_tx_usage_error _ { closed := false, bookmark := none } _
    ⟨Or.inl rfl, fun _ => rfl⟩ rfl

/-- The unit-of-work invocation counter never decreases along the retry
loop. -/
theorem runTxLoop_uowCalls_le {α : Type} (budget : ℚ) (l : List (AttemptOracle α)) :
    ∀ acc : RetryAcc, acc.uowCalls ≤ (runTxLoop budget l acc).final.uowCalls := by
  induction l with
  | nil => intro acc; simp [runTxLoop]
  | cons a rest ih =>
    intro acc
    obtain ⟨op, u, cm, t⟩ := a
    cases op with
    | some e =>
      by_cases hr : recordedByEngine e
      · by_cases hb : t > budget
        · simp [runTxLoop, attemptStep, hr, hb]
        · simp only [runTxLoop, attemptStep, hr, if_true, hb, if_false]
          exact ih { errors := acc.errors ++ [e], uowCalls := acc.uowCalls,
                     sleeps := acc.sleeps + 1, rollbacks := acc.rollbacks,
                     closes := acc.closes }
      · simp [runTxLoop, attemptStep, hr]
    | none =>
      cases u with
      | error e =>
        by_cases hr : recordedByEngine e
        · by_cases hb : t > budget
          · simp [runTxLoop, attemptStep, hr, hb]
          · simp only [runTxLoop, attemptStep, hr, if_true, hb, if_false]
            exact le_trans (Nat.le_succ _)
              (ih { errors := acc.errors ++ [e], uowCalls := acc.uowCalls + 1,
                    sleeps := acc.sleeps + 1, rollbacks := acc.rollbacks + 1,
                    closes := acc.closes + 1 })
        · simp [runTxLoop, attemptStep, hr]
      | ok v =>
        cases cm with
        | some e =>
          by_cases hr : recordedByEngine e
          · by_cases hb : t > budget
            · simp [runTxLoop, attemptStep, hr, hb]
            · simp only [runTxLoop, attemptStep, hr, if_true, hb, if_false]
              exact le_trans (Nat.le_succ _)
                (ih { errors := acc.errors ++ [e], uowCalls := acc.uowCalls + 1,
                      sleeps := acc.sleeps + 1, rollbacks := acc.rollbacks,
                      closes := acc.closes + 1 })
          · simp [runTxLoop, attemptStep, hr]
        | none =>
          simp [runTxLoop, attemptStep]

/-- C3 counterexample: a unit of work that raises `ServiceUnavailable`
on the first attempt is rolled back but then caught by the outer
connectivity handler of the loop, recorded, slept on and retried — the
unit of work is invoked a second time and the run even succeeds,
contradicting the claim that every exception raised by the unit of work
is re-raised immediately regardless of its type. -/
theorem uow_connectivity_error_is_retried :
    run_transaction (10 : ℚ)
      [{ openTx := none, uow := Except.error (DriverError.serviceUnavailable "down"),
         commit := none, elapsedAfter := 0 },
       { openTx := none, uow := Except.ok (42 : ℕ), commit := none, elapsedAfter := 0 }]
      = { result := .ok 42,
          final := { errors := [DriverError.serviceUnavailable "down"],
                     uowCalls := 2, sleeps := 1, rollbacks := 1, closes := 2 } } := by
  rfl

/-- C3 amended: on an exception raised by the unit of work the engine
rolls the transaction back, closes it and re-raises; the re-raised
exception escapes the loop at once only when it is not one the outer
handlers catch (not a connectivity failure and not a retriable transient
error). For every such exception the unit of work is invoked exactly
once, the exception propagates unmodified, no retry sleep occurs and
nothing is recorded. -/
theorem uow_uncaught_error_not_retried {α : Type} (budget t : ℚ) (e : DriverError)
    (cm : Option DriverError) (rest : List (AttemptOracle α))
    (he : recordedByEngine e = false) :
    runTxLoop budget
      ({ openTx := none, uow := Except.error e, commit := cm, elapsedAfter := t } :: rest)
      initAcc
      = { result := .err e,
          final := { errors := [], uowCalls := 1, sleeps := 0,
                     rollbacks := 1, closes := 1 } } := by
  simp [runTxLoop, attemptStep, initAcc, he]

/-- Witness for the amended C3: a generic server error raised by the
unit of work propagates after exactly one invocation, with a rollback
and a close and no sleep. -/
theorem uow_uncaught_error_not_retried_witness :
    runTxLoop (10 : ℚ)
      ([{ openTx := none, uow := Except.error (DriverError.neo4jError "boom"),
          commit := none, elapsedAfter := (0 : ℚ) }] : List (AttemptOracle ℕ))
      initAcc
      = { result := RunResult.err (DriverError.neo4jError "boom"),
          final := { errors := [], uowCalls := 1, sleeps := 0,
                     rollbacks := 1, closes := 1 } } :=
  uow_uncaught_error_not_retried 10 0 (DriverError.neo4jError "boom") none
    ([] : List (AttemptOracle ℕ)) rfl

/-- C4: `is_retriable_transient_error` returns false exactly on the two
codes for a terminated transaction and a stopped lock client and true on
every other code; the retry loop re-raises a non-retriable transient
error immediately (nothing recorded, no sleep) and records a retriable
one, sleeping and retrying while the budget allows. -/
theorem transient_error_classification {α : Type} (c : String) (budget t : ℚ)
    (u : Except DriverError α) (cm : Option DriverError)
    (rest : List (AttemptOracle α)) (acc : RetryAcc) :
    (is_retriable_transient_error { code := c } = false ↔
      (c = "Neo.TransientError.Transaction.Terminated" ∨
       c = "Neo.TransientError.Transaction.LockClientStopped")) ∧
    (runTxLoop budget
        ({ openTx := some (.transientError c), uow := u, commit := cm,
           elapsedAfter := t } :: rest) acc
      = if is_retriable_transient_error { code := c } then
          (if t > budget then
            { result := .err (finalError (acc.errors ++ [.transientError c])),
              final := { acc with errors := acc.errors ++ [.transientError c] } }
          else
            runTxLoop budget rest
              { acc with errors := acc.errors ++ [.transientError c],
                         sleeps := acc.sleeps + 1 })
        else { result := .err (.transientError c), final := acc }) := by
  constructor
  · simp only [is_retriable_transient_error, Bool.not_eq_false', Bool.or_eq_true,
      decide_eq_true_eq]
  · by_cases hr : is_retriable_transient_error { code := c } <;>
      by_cases hb : t > budget <;>
        simp [runTxLoop, attemptStep, recordedByEngine, hr, hb]

/-- C5: when the wall-clock budget is exceeded after an attempt whose
error was recorded, the loop raises exactly the most recently recorded
error (no synthetic wrapper), and the finalization rule raises the
generic `ServiceUnavailable("Transaction failed")` when the recorded
list is empty. -/
theorem budget_exhausted_raises_last_recorded {α : Type} (budget t : ℚ)
    (e : DriverError) (u : Except DriverError α) (cm : Option DriverError)
    (rest : List (AttemptOracle α)) (acc : RetryAcc)
    (hrec : recordedByEngine e = true) (hb : t > budget) :
    runTxLoop budget
        ({ openTx := some e, uow := u, commit := cm, elapsedAfter := t } :: rest) acc
      = { result := .err e, final := { acc with errors := acc.errors ++ [e] } }
    ∧ finalError [] = DriverError.serviceUnavailable "Transaction failed" := by
  constructor
  · simp [runTxLoop, attemptStep, hrec, hb, finalError]
  · rfl

/-- Witness for C5: one recorded connectivity failure with the budget
already exceeded surfaces that very error. -/
theorem budget_exhausted_raises_last_recorded_witness :
    runTxLoop (0 : ℚ)
      [{ openTx := some (DriverError.serviceUnavailable "down"),
         uow := Except.ok (0 : ℕ), commit := none, elapsedAfter := (1 : ℚ) }]
      initAcc
      = { result := RunResult.err (DriverError.serviceUnavailable "down"),
          final := { errors := [DriverError.serviceUnavailable "down"],
                     uowCalls := 0, sleeps := 0, rollbacks := 0, closes := 0 } }
    ∧ finalError [] = DriverError.serviceUnavailable "Transaction failed" :=
  budget_exhausted_raises_last_recorded 0 1 (DriverError.serviceUnavailable "down")
    (Except.ok (0 : ℕ)) none [] initAcc rfl (by norm_num)

/-- C10: the engine always performs at least one attempt, because the
time budget is only checked after a failed attempt: whenever the first
attempt reaches the unit of work, the unit of work is invoked at least
once for every budget (zero and negative included), and a first attempt
that succeeds returns its result no matter how small the budget is. -/
theorem at_least_one_attempt {α : Type} (budget : ℚ) (a : AttemptOracle α)
    (rest : List (AttemptOracle α)) (v : α) (hopen : a.openTx = none) :
    1 ≤ (runTxLoop budget (a :: rest) initAcc).final.uowCalls
    ∧ (a.uow = Except.ok v → a.commit = none →
        runTxLoop budget (a :: rest) initAcc
          = { result := .ok v,
              final := { errors := [], uowCalls := 1, sleeps := 0,
                         rollbacks := 0, closes := 1 } }) := by
  obtain ⟨op, u, cm, t⟩ := a
  simp only at hopen
  subst hopen
  constructor
  · cases u with
    | error e =>
      by_cases hr : recordedByEngine e
      · by_cases hb : t > budget
        · simp [runTxLoop, attemptStep, hr, hb, initAcc]
        · simp only [runTxLoop, attemptStep, hr, if_true, hb, if_false]
          exact le_trans (by simp [initAcc]) (runTxLoop_uowCalls_le budget rest _)
      · simp [runTxLoop, attemptStep, hr, initAcc]
    | ok w =>
      cases cm with
      | some e =>
        by_cases hr : recordedByEngine e
        · by_cases hb : t > budget
          · simp [runTxLoop, attemptStep, hr, hb, initAcc]
          · simp only [runTxLoop, attemptStep, hr, if_true, hb, if_false]
            exact le_trans (by simp [initAcc]) (runTxLoop_uowCalls_le budget rest _)
        · simp [runTxLoop, attemptStep, hr, initAcc]
      | none => simp [runTxLoop, attemptStep, initAcc]
  · intro hu hc
    simp only at hu hc
    subst hu
    subst hc
    rfl

/-- Witness for C10: with a negative budget, a first successful attempt
still runs and returns its value after exactly one invocation of the
unit of work. -/
theorem at_least_one_attempt_witness :
    1 ≤ (runTxLoop (-1 : ℚ)
          [{ openTx := none, uow := Except.ok (7 : ℕ), commit := none,
             elapsedAfter := (0 : ℚ) }] initAcc).final.uowCalls
    ∧ runTxLoop (-1 : ℚ)
        [{ openTx := none, uow := Except.ok (7 : ℕ), commit := none,
           elapsedAfter := (0 : ℚ) }] initAcc
        = { result := RunResult.ok 7,
            final := { errors := [], uowCalls := 1, sleeps := 0,
                       rollbacks := 0, closes := 1 } } :=
  have h := at_least_one_attempt (-1)
    { openTx := none, uow := Except.ok (7 : ℕ), commit := none,
      elapsedAfter := (0 : ℚ) } [] 7 rfl
  ⟨h.1, h.2 rfl rfl⟩

/-- C8 counterexample: at jitter factor j = 0 (allowed by the claim,
which requires only 0 ≤ j < 1) the claimed half-open interval
`[d0 * m ^ k * (1 - j), d0 * m ^ k * (1 + j))` degenerates to the empty
interval [d, d), while the generator emits exactly d, so the emitted
value does not lie in the claimed interval. -/
theorem retry_delay_interval_counterexample :
    ¬((1 : ℚ) * 1 ^ 0 * (1 - 0) ≤ retry_delay_generator 1 1 0 (fun _ => 0) 0 ∧
      retry_delay_generator 1 1 0 (fun _ => 0) 0 < (1 : ℚ) * 1 ^ 0 * (1 + 0)) := by
  norm_num [retry_delay_generator, retryDelay]

/-- C8 amended: for every initial delay d0 > 0, multiplier m > 0, jitter
factor j with 0 ≤ j < 1, and random draw in [0, 1), the k-th emitted
value lies in the closed interval `[d0 * m ^ k * (1 - j),
d0 * m ^ k * (1 + j)]`, lies strictly below the upper end whenever
j > 0 (recovering the claimed half-open interval), and equals
`d0 * m ^ k` exactly when j = 0; the generator is total, emitting a
value for every k. -/
theorem retry_delay_interval_amended (d0 m j : ℚ) (draw : ℕ → ℚ) (k : ℕ)
    (hd0 : 0 < d0) (hm : 0 < m) (hj0 : 0 ≤ j) (hj1 : j < 1)
    (hr0 : 0 ≤ draw k) (hr1 : draw k < 1) :
    d0 * m ^ k * (1 - j) ≤ retry_delay_generator d0 m j draw k
    ∧ retry_delay_generator d0 m j draw k ≤ d0 * m ^ k * (1 + j)
    ∧ (0 < j → retry_delay_generator d0 m j draw k < d0 * m ^ k * (1 + j))
    ∧ (j = 0 → retry_delay_generator d0 m j draw k = d0 * m ^ k) := by
  have hd : 0 < d0 * m ^ k := by positivity
  simp only [retry_delay_generator, retryDelay_eq_pow]
  refine ⟨?_, ?_, ?_, ?_⟩
  · nlinarith [mul_nonneg (mul_nonneg hj0 hd.le) hr0]
  · nlinarith [mul_nonneg (mul_nonneg hj0 hd.le) (sub_nonneg.mpr hr1.le)]
  · intro hj
    nlinarith [mul_pos (mul_pos hj hd) (sub_pos.mpr hr1)]
  · intro hj
    subst hj
    ring

/-- Witness for the amended C8: d0 = 1, m = 2, j = 1/2, draw = 1/2,
k = 1 emits the value 2, inside [1, 3] and strictly below 3. -/
theorem retry_delay_interval_amended_witness :
    (1 : ℚ) * 2 ^ 1 * (1 - 1 / 2) ≤ retry_delay_generator 1 2 (1 / 2) (fun _ => 1 / 2) 1
    ∧ retry_delay_generator 1 2 (1 / 2) (fun _ => 1 / 2) 1 ≤ (1 : ℚ) * 2 ^ 1 * (1 + 1 / 2)
    ∧ ((0 : ℚ) < 1 / 2 →
        retry_delay_generator 1 2 (1 / 2) (fun _ => 1 / 2) 1 < (1 : ℚ) * 2 ^ 1 * (1 + 1 / 2))
    ∧ ((1 : ℚ) / 2 = 0 →
        retry_delay_generator 1 2 (1 / 2) (fun _ => 1 / 2) 1 = (1 : ℚ) * 2 ^ 1) :=
  retry_delay_interval_amended 1 2 (1 / 2) (fun _ => 1 / 2) 1
    (by norm_num) (by norm_num) (by norm_num) (by norm_num) (by norm_num) (by norm_num)

end Neo4j
